import Mathlib

/-!
Shallow embedding of the SRT connection-group core (`srtcore/group.h`,
class `CUDTGroup`) and proofs about it.

Modelling conventions:
- `char*` payload pointers become `Option Nat` (a pointer identity, `none` = null);
- `std::vector<char*>` free lists become `List Block` used as a stack
  (`push_back`/`back`/`pop_back` operate at the list head);
- byte buffers become `List Nat`, a raw byte source (`const void*`) becomes
  `Nat → Nat`;
- `time_point` becomes `Int` with `is_zero t` meaning `t = 0`;
- `int32_t` becomes `Int`, with two's-complement wraparound applied
  explicitly where the source increments a counter that can overflow;
- stateful methods become pure functions returning the updated state.
-/

namespace SRTGroup

/-- Sentinel for "no sequence number yet" (`SRT_SEQNO_NONE` from `srt.h`,
which is outside the group core; its concrete value is `-1` in SRT and is
irrelevant to the theorems below). -/
def SRT_SEQNO_NONE : Int := -1

/-! ## isStillBusy (C2) and remove (C1, C9) -/

/-- Member slot of the group member table (`CUDTGroup::SocketData`).
Fields whose types live outside the group core (socket handle, addresses,
states) are dropped; only the fields the claims mention are kept. -/
structure SocketData where
  id : Int
  token : Int
  weight : Nat
deriving DecidableEq, Repr

/-- The group state touched by `remove` and `isStillBusy`:
the member table `m_Group`, the scheduling/receive sequence anchors,
the lifecycle flags, the receiver positions map (modelled by its key set)
and the busy counter. -/
structure GroupState where
  group : List SocketData
  iLastSchedSeqNo : Int
  rcvBaseSeqNo : Int
  bOpened : Bool
  bConnected : Bool
  positionKeys : List Int
  iBusy : Int
deriving DecidableEq, Repr

/-- Predicate `HaveID` applied through `std::find_if`: does the member
table contain an entry with the given socket id? -/
def containsId (l : List SocketData) (id : Int) : Bool :=
  l.any (fun s => s.id == id)

/-- Effect of `m_Group.erase(find_if(..., HaveID(id)))`: erase the first
entry whose `id` field matches (no-op when absent). -/
def eraseFirstWithId (l : List SocketData) (id : Int) : List SocketData :=
  match l with
  | [] => []
  | x :: xs => if x.id == id then xs else x :: eraseFirstWithId xs id

/-- `CUDTGroup::resetInitialRxSequence`: sets `m_RcvBaseSeqNo` back to
`SRT_SEQNO_NONE`. -/
def resetInitialRxSequence (g : GroupState) : GroupState :=
  { g with rcvBaseSeqNo := SRT_SEQNO_NONE }

/-- `CUDTGroup::remove(id)`. `freshISN` stands for the return value of
`generateISN()`, which is declared in `group.h` but defined outside the
group core; the function is parameterized by it. Mirrors the source
control flow: find the entry; if found erase it, and if the table became
empty install a fresh ISN as `m_iLastSchedSeqNo`, reset the receive base
sequence and record `empty := true`; if not found record `empty := true`
directly; afterwards, if the table is empty clear `m_bOpened` and
`m_bConnected`; always erase `id` from `m_Positions`; return `!empty`. -/
def remove (g : GroupState) (freshISN : Int) (id : Int) : Bool × GroupState :=
  let found := containsId g.group id
  let g1 := if found then { g with group := eraseFirstWithId g.group id } else g
  let empty := if found then g1.group.isEmpty else true
  let g2 := if found && g1.group.isEmpty then
      resetInitialRxSequence { g1 with iLastSchedSeqNo := freshISN }
    else g1
  let g3 := if g2.group.isEmpty then { g2 with bOpened := false, bConnected := false } else g2
  let g4 := { g3 with positionKeys := g3.positionKeys.filter (fun k => k ≠ id) }
  (!empty, g4)

/-- `CUDTGroup::isStillBusy()`: `m_iBusy || !m_Group.empty()` with C++
truthiness of the `int` counter. -/
def isStillBusy (g : GroupState) : Bool :=
  (g.iBusy != 0) || !g.group.isEmpty

/-! ## BufferedMessageStorage (C3, C7) -/

/-- A heap block handed out by the storage. `size` records how many bytes
were allocated behind the `char*`; `tag` is the pointer identity. -/
structure Block where
  size : Nat
  tag : Nat
deriving DecidableEq, Repr

/-- `CUDTGroup::BufferedMessageStorage`: block size, cap on the free list,
and the free list itself (head of the list = back of the vector). -/
structure BufferedMessageStorage where
  blocksize : Nat
  maxstorage : Nat
  storage : List Block
deriving DecidableEq, Repr

/-- `BufferedMessageStorage` constructor: `storage` starts empty. -/
def BufferedMessageStorage.init (blk : Nat) (max : Nat) : BufferedMessageStorage :=
  ⟨blk, max, []⟩

/-- `BufferedMessageStorage::get()`: take the block at the back of the
free list, or allocate a fresh `blocksize`-byte block when the list is
empty. `freshTag` stands for the address returned by `new`. -/
def BufferedMessageStorage.get (s : BufferedMessageStorage) (freshTag : Nat) :
    Block × BufferedMessageStorage :=
  match s.storage with
  | [] => (⟨s.blocksize, freshTag⟩, s)
  | b :: rest => (b, { s with storage := rest })

/-- `BufferedMessageStorage::put(block)`: delete the block when the free
list has reached the cap, otherwise push it onto the free list. The
returned `Bool` is `true` when the block was deleted. -/
def BufferedMessageStorage.put (s : BufferedMessageStorage) (block : Block) :
    BufferedMessageStorage × Bool :=
  if s.storage.length ≥ s.maxstorage then (s, true)
  else ({ s with storage := block :: s.storage }, false)

/-- One call against the storage: a `get` (with the tag a fresh allocation
would carry) or a `put` of some block. -/
inductive StorageOp where
  | get : Nat → StorageOp
  | put : Block → StorageOp
deriving DecidableEq, Repr

/-- State reached after one storage call (results discarded). -/
def runOp (s : BufferedMessageStorage) : StorageOp → BufferedMessageStorage
  | .get t => (s.get t).2
  | .put b => (s.put b).1

/-- State reached after a sequence of storage calls. -/
def runOps (s : BufferedMessageStorage) (ops : List StorageOp) : BufferedMessageStorage :=
  ops.foldl runOp s

/-! ## genToken (C4) -/

/-- Two's-complement wraparound of an `int32_t` value. -/
def wrap32 (n : Int) : Int :=
  ((n + 2 ^ 31) % 2 ^ 32) - 2 ^ 31

/-- `CUDTGroup::genToken()`: pre-increment the static `s_tokenGen`
counter (an `int32_t`, so the increment wraps), clamp a negative result
to `0`, store it back, and return it. Input is the counter before the
call; output is `(counter after the call, returned token)`. -/
def genToken (s : Int) : Int × Int :=
  let s1 := wrap32 (s + 1)
  let s2 := if s1 < 0 then 0 else s1
  (s2, s2)

/-! ## applyGroupTime (C5) -/

/-- The two group-time anchors (`m_tsStartTime`, `m_tsRcvPeerStartTime`). -/
structure GroupTimeState where
  tsStartTime : Int
  tsRcvPeerStartTime : Int
deriving DecidableEq, Repr

/-- `CUDTGroup::applyGroupTime(w_start_time, w_peer_start_time)`.
Returns `(return value, updated anchors, updated w_start_time, updated
w_peer_start_time)`. First caller (zero `m_tsStartTime`) installs both
anchors and gets `true`; later callers get `false` and their reference
arguments overwritten with the stored anchors — with the sanity-check
fallback that a zero stored `m_tsRcvPeerStartTime` is first repaired from
the caller's argument. -/
def applyGroupTime (g : GroupTimeState) (wStart wPeer : Int) :
    Bool × GroupTimeState × Int × Int :=
  if g.tsStartTime = 0 then
    (true, ⟨wStart, wPeer⟩, wStart, wPeer)
  else
    let g1 := if g.tsRcvPeerStartTime = 0 then { g with tsRcvPeerStartTime := wPeer } else g
    (false, g1, g1.tsStartTime, g1.tsRcvPeerStartTime)

/-! ## BufferedMessage (C6) -/

/-- Message control header (`SRT_MSGCTRL` from `srt.h`, outside the group
core). Modelled from the spec: it carries packet sequence, message
number, TSBPD timestamp, TTL, in-order flag and source-member id. For the
claims below it is only moved around verbatim. -/
structure SRT_MSGCTRL where
  pktseq : Int
  msgno : Int
  srctime : Int
  ttl : Int
  inorder : Bool
  srcid : Int
deriving DecidableEq, Repr

/-- `CUDTGroup::BufferedMessage`: control header, payload pointer
(`none` = null) and payload size. -/
structure BufferedMessage where
  mc : SRT_MSGCTRL
  data : Option Nat
  size : Nat
deriving DecidableEq, Repr

/-- Copy constructor `BufferedMessage(const BufferedMessage& foreign)`:
the new object takes `mc`, `data` and `size` from `foreign`, and
`foreign.data` is nulled. Returns `(constructed object, foreign after)`. -/
def BufferedMessage.copyCtor (foreign : BufferedMessage) :
    BufferedMessage × BufferedMessage :=
  (⟨foreign.mc, foreign.data, foreign.size⟩, { foreign with data := none })

/-- Copy assignment `operator=(const BufferedMessage& foreign)`: the
destination takes `data`, `size` and `mc` from `foreign`, and
`foreign.data` is nulled. Returns `(destination after, foreign after)`. -/
def BufferedMessage.assign (dst foreign : BufferedMessage) :
    BufferedMessage × BufferedMessage :=
  ({ dst with data := foreign.data, size := foreign.size, mc := foreign.mc },
   { foreign with data := none })

/-! ## ConfigItem (C8, C10) -/

/-- `CUDTGroup::ConfigItem`: option code plus opaque byte blob
(`std::vector<unsigned char>`). -/
structure ConfigItem where
  so : Int
  value : List Nat
deriving DecidableEq, Repr

/-- Effect of `std::copy(src, src + n, dst.begin())` on a byte vector:
positions below `n` take the source bytes, later positions keep their
old contents. `src` is a raw byte source read by offset. -/
def stdCopy (src : Nat → Nat) (n : Nat) (dst : List Nat) : List Nat :=
  (List.range dst.length).map (fun i => if i < n then src i else dst.getD i 0)

/-- `ConfigItem::ConfigItem(o, val, size)`: default-constructs the blob,
resizes it to `size` (zero-filled) and copies the first `size` bytes of
`val` into it. -/
def ConfigItem.ctor (o : Int) (val : Nat → Nat) (size : Nat) : ConfigItem :=
  { so := o, value := stdCopy val size (List.replicate size 0) }

/-- `ConfigItem::get<T>(refr)` with `sizeof(T) = sizeofT` and the target
object modelled as its byte image: fail (leaving `refr` untouched) when
`sizeof(T)` exceeds the blob length, else overwrite `refr` with the first
`sizeof(T)` blob bytes. Returns `(return value, refr after)`. -/
def ConfigItem.get (ci : ConfigItem) (sizeofT : Nat) (refr : List Nat) :
    Bool × List Nat :=
  if sizeofT > ci.value.length then (false, refr)
  else (true, ci.value.take sizeofT)

/-! ## Concrete states used by the witness theorems -/

/-- A member slot with socket id 42. -/
def sdEx : SocketData := ⟨42, 1, 0⟩

/-- A member slot with socket id 5. -/
def sdEx5 : SocketData := ⟨5, 2, 0⟩

/-- A group whose member table holds exactly the one entry `sdEx`. -/
def gsEx : GroupState := ⟨[sdEx], 9, 9, true, true, [42], 0⟩

/-- A group whose member table holds two entries, with ids 5 and 42. -/
def gsTwo : GroupState := ⟨[sdEx5, sdEx], 9, 9, true, true, [5, 42], 0⟩

/-- A sample 10-byte block with pointer tag 0. -/
def blkA : Block := ⟨10, 0⟩

/-- A storage with cap 2 whose free list is already full. -/
def stFull : BufferedMessageStorage := ⟨10, 2, [blkA, ⟨10, 1⟩]⟩

/-- A storage with cap 2 holding one cached 10-byte block. -/
def stOne : BufferedMessageStorage := ⟨10, 2, [⟨10, 3⟩]⟩

/-- An all-zero message control header. -/
def mcZero : SRT_MSGCTRL := ⟨0, 0, 0, 0, true, 0⟩

/-- A buffered message owning pointer 7 with 5 payload bytes. -/
def bmSrc : BufferedMessage := ⟨mcZero, some 7, 5⟩

/-- A buffered message owning pointer 3 with 2 payload bytes. -/
def bmDst : BufferedMessage := ⟨mcZero, some 3, 2⟩

/-- A config item with a 3-byte blob. -/
def ciEx : ConfigItem := ⟨1, [10, 20, 30]⟩

/-! ## Theorems -/

/-- C2: `isStillBusy()` returns `false` if and only if the busy counter
`m_iBusy` equals zero and the member table is empty, so the garbage
collector's reclamation test passes exactly in that situation. -/
theorem isStillBusy_false_iff (g : GroupState) :
    isStillBusy g = false ↔ g.iBusy = 0 ∧ g.group = [] := by
  simp [isStillBusy, List.isEmpty_iff]

/-- C1: removing the sole member of a group erases it leaving the member
table empty, installs the freshly generated ISN as `m_iLastSchedSeqNo`,
resets `m_RcvBaseSeqNo` to `SRT_SEQNO_NONE`, and clears both `m_bOpened`
and `m_bConnected`. -/
theorem remove_last_member (g : GroupState) (e : SocketData) (freshISN id : Int)
    (hg : g.group = [e]) (hid : e.id = id) :
    (remove g freshISN id).2.group = [] ∧
    (remove g freshISN id).2.iLastSchedSeqNo = freshISN ∧
    (remove g freshISN id).2.rcvBaseSeqNo = SRT_SEQNO_NONE ∧
    (remove g freshISN id).2.bOpened = false ∧
    (remove g freshISN id).2.bConnected = false := by
  simp [remove, containsId, eraseFirstWithId, hg, hid, resetInitialRxSequence]

/-- Witness for C1 at a concrete one-member group. -/
theorem remove_last_member_witness :
    (remove gsEx 77 42).2.group = [] ∧
    (remove gsEx 77 42).2.iLastSchedSeqNo = 77 ∧
    (remove gsEx 77 42).2.rcvBaseSeqNo = SRT_SEQNO_NONE ∧
    (remove gsEx 77 42).2.bOpened = false ∧
    (remove gsEx 77 42).2.bConnected = false :=
  remove_last_member gsEx sdEx 77 42 rfl rfl

/-- C9: `remove(id)` on an absent id leaves the member table unchanged and
returns `false`, even when other members remain; it returns `true` exactly
when the id was found and at least one member remains after the erase. -/
theorem remove_absent_id (g : GroupState) (freshISN id : Int) :
    (containsId g.group id = false →
      (remove g freshISN id).2.group = g.group ∧ (remove g freshISN id).1 = false) ∧
    ((remove g freshISN id).1 = true →
      containsId g.group id = true ∧ eraseFirstWithId g.group id ≠ []) := by
  constructor
  · intro h
    constructor
    · simp [remove, h, apply_ite]
    · simp [remove, h]
  · intro h
    by_cases hfound : containsId g.group id = true
    · refine ⟨hfound, fun he => ?_⟩
      simp [remove, hfound, he] at h
    · rw [Bool.not_eq_true] at hfound
      simp [remove, hfound] at h

/-- Witness for C9: id 99 is absent from the two-member group `gsTwo`,
id 5 is present with another member remaining. -/
theorem remove_absent_id_witness :
    ((remove gsTwo 77 99).2.group = gsTwo.group ∧ (remove gsTwo 77 99).1 = false) ∧
    (containsId gsTwo.group 5 = true ∧ eraseFirstWithId gsTwo.group 5 ≠ []) :=
  ⟨(remove_absent_id gsTwo 77 99).1 (by decide),
   (remove_absent_id gsTwo 77 5).2 (by decide)⟩

/-- A single storage call keeps the free list within the cap and changes
neither the cap nor the block size. -/
theorem runOp_preserves (s : BufferedMessageStorage) (op : StorageOp)
    (h : s.storage.length ≤ s.maxstorage) :
    (runOp s op).storage.length ≤ (runOp s op).maxstorage ∧
    (runOp s op).maxstorage = s.maxstorage ∧
    (runOp s op).blocksize = s.blocksize := by
  cases op with
  | get t =>
    cases hs : s.storage with
    | nil => simp [runOp, BufferedMessageStorage.get, hs]
    | cons b rest =>
      simp [runOp, BufferedMessageStorage.get, hs]
      have := hs ▸ h
      simp at this
      omega
  | put b =>
    by_cases hc : s.storage.length ≥ s.maxstorage
    · simp [runOp, BufferedMessageStorage.put, hc]; omega
    · simp [runOp, BufferedMessageStorage.put, hc]; omega

/-- A whole sequence of storage calls keeps the free list within the cap
and preserves the cap and the block size. -/
theorem runOps_preserves (ops : List StorageOp) (s : BufferedMessageStorage)
    (h : s.storage.length ≤ s.maxstorage) :
    (runOps s ops).storage.length ≤ (runOps s ops).maxstorage ∧
    (runOps s ops).maxstorage = s.maxstorage ∧
    (runOps s ops).blocksize = s.blocksize := by
  induction ops generalizing s with
  | nil => exact ⟨h, rfl, rfl⟩
  | cons op rest ih =>
    have h1 := runOp_preserves s op h
    have h2 := ih (runOp s op) (h1.2.1 ▸ h1.1)
    refine ⟨h2.1, h2.2.1.trans h1.2.1, h2.2.2.trans h1.2.2⟩

/-- Exact free-list length after a run of consecutive `put` calls. -/
theorem runOps_puts_length (blocks : List Block) (s : BufferedMessageStorage)
    (h : s.storage.length ≤ s.maxstorage) :
    (runOps s (blocks.map StorageOp.put)).storage.length =
      min (s.storage.length + blocks.length) s.maxstorage := by
  induction blocks generalizing s with
  | nil => simp [runOps]; omega
  | cons b rest ih =>
    by_cases hc : s.storage.length ≥ s.maxstorage
    · have hs : runOp s (StorageOp.put b) = s := by
        simp [runOp, BufferedMessageStorage.put, hc]
      simp only [List.map_cons, runOps, List.foldl_cons]
      rw [hs]
      have hrec := ih s h
      simp only [runOps] at hrec
      rw [hrec]
      simp only [List.length_cons]
      omega
    · have hput : runOp s (StorageOp.put b) = { s with storage := b :: s.storage } := by
        simp [runOp, BufferedMessageStorage.put, hc]
      simp only [List.map_cons, runOps, List.foldl_cons]
      rw [hput]
      have hrec := ih { s with storage := b :: s.storage } (by simp; omega)
      simp only [runOps] at hrec
      rw [hrec]
      simp
      omega

/-- C3: starting from a freshly constructed storage with cap `max`, the
free list never exceeds `max` blocks after any sequence of `get`/`put`
calls; after a run of more than `max` consecutive `put` calls the free
list holds exactly `max` blocks; and a `put` on a storage whose free list
is already at the cap deletes the block and caches nothing. -/
theorem bufferedMessageStorage_cap (blk max : Nat) (ops : List StorageOp)
    (blocks : List Block) (b : Block) (s : BufferedMessageStorage) :
    ((runOps (BufferedMessageStorage.init blk max) ops).storage.length ≤ max) ∧
    (blocks.length > max →
      (runOps (BufferedMessageStorage.init blk max)
        (blocks.map StorageOp.put)).storage.length = max) ∧
    (s.storage.length ≥ s.maxstorage → s.put b = (s, true)) := by
  refine ⟨?_, fun hn => ?_, fun hc => ?_⟩
  · have h := runOps_preserves ops (BufferedMessageStorage.init blk max)
      (by simp [BufferedMessageStorage.init])
    calc (runOps (BufferedMessageStorage.init blk max) ops).storage.length
        ≤ (runOps (BufferedMessageStorage.init blk max) ops).maxstorage := h.1
      _ = max := h.2.1
  · have h := runOps_puts_length blocks (BufferedMessageStorage.init blk max)
      (by simp [BufferedMessageStorage.init])
    simp only [BufferedMessageStorage.init] at h ⊢
    rw [h]
    simp
    omega
  · simp [BufferedMessageStorage.put, hc]

/-- Witness for C3: cap 2, a mixed call sequence, three consecutive puts,
and a put on a full storage. -/
theorem bufferedMessageStorage_cap_witness :
    ((runOps (BufferedMessageStorage.init 10 2)
        [StorageOp.put blkA, StorageOp.get 1, StorageOp.put blkA]).storage.length ≤ 2) ∧
    ((runOps (BufferedMessageStorage.init 10 2)
        ([blkA, blkA, blkA].map StorageOp.put)).storage.length = 2) ∧
    (stFull.put blkA = (stFull, true)) :=
  ⟨(bufferedMessageStorage_cap 10 2
      [StorageOp.put blkA, StorageOp.get 1, StorageOp.put blkA] [] blkA stFull).1,
   (bufferedMessageStorage_cap 10 2 [] [blkA, blkA, blkA] blkA stFull).2.1 (by decide),
   (bufferedMessageStorage_cap 10 2 [] [] blkA stFull).2.2 (by decide)⟩

/-- C7: `get()` never fails. Whenever every cached block was allocated at
the storage's block size, `get` returns a block of exactly `blocksize`
bytes: it pops the back of the free list when one is available and falls
back to a fresh `blocksize`-byte allocation when the free list is empty,
leaving the rest of the state unchanged. -/
theorem bufferedMessageStorage_get_total (s : BufferedMessageStorage) (freshTag : Nat)
    (hinv : ∀ b ∈ s.storage, b.size = s.blocksize) :
    (s.get freshTag).1.size = s.blocksize ∧
    (s.storage = [] → s.get freshTag = (⟨s.blocksize, freshTag⟩, s)) ∧
    (∀ b rest, s.storage = b :: rest →
      s.get freshTag = (b, { s with storage := rest })) := by
  refine ⟨?_, fun he => ?_, fun b rest he => ?_⟩
  · cases hs : s.storage with
    | nil => simp [BufferedMessageStorage.get, hs]
    | cons b rest =>
      have hb : b.size = s.blocksize := hinv b (hs ▸ List.mem_cons_self b rest)
      simp [BufferedMessageStorage.get, hs, hb]
  · simp [BufferedMessageStorage.get, he]
  · simp [BufferedMessageStorage.get, he]

/-- Witness for C7: a one-block free list and an empty free list. -/
theorem bufferedMessageStorage_get_total_witness :
    ((stOne.get 7).1.size = 10) ∧
    ((BufferedMessageStorage.init 10 2).get 7 =
      (⟨10, 7⟩, BufferedMessageStorage.init 10 2)) :=
  ⟨(bufferedMessageStorage_get_total stOne 7 (by decide)).1,
   (bufferedMessageStorage_get_total (BufferedMessageStorage.init 10 2) 7
      (by decide)).2.1 rfl⟩

/-- Counterexample for C4 as stated: when the token counter sits just
below `INT32_MAX`, the next call returns `INT32_MAX = 2^31 - 1` and the
call after it wraps, is clamped to `0`, and returns a smaller token. -/
theorem genToken_wrap_cex :
    (genToken (2 ^ 31 - 2)).2 = 2 ^ 31 - 1 ∧
    (genToken ((genToken (2 ^ 31 - 2)).1)).2 = 0 ∧
    ¬ ((genToken (2 ^ 31 - 2)).2 < (genToken ((genToken (2 ^ 31 - 2)).1)).2) := by
  refine ⟨?_, ?_, ?_⟩ <;> decide

/-- The token returned by `genToken` is never negative: a wrapped
negative counter is clamped to `0` before being returned. -/
theorem genToken_ret_nonneg (s : Int) : 0 ≤ (genToken s).2 := by
  simp only [genToken]
  split <;> omega

/-- C4 (amended): tokens of consecutive `genToken()` calls are strictly
increasing as long as the earlier call did not return `INT32_MAX`; at
`INT32_MAX` the counter wraps around and restarts from `0`. -/
theorem genToken_strictly_increasing (s : Int)
    (h : (genToken s).2 < 2 ^ 31 - 1) :
    (genToken s).2 < (genToken ((genToken s).1)).2 := by
  have h0 : 0 ≤ (genToken s).2 := genToken_ret_nonneg s
  have h1 : (genToken s).1 = (genToken s).2 := rfl
  rw [h1]
  set r := (genToken s).2 with hr
  have e31 : (2 : Int) ^ 31 = 2147483648 := by norm_num
  have e32 : (2 : Int) ^ 32 = 4294967296 := by norm_num
  have hw : wrap32 (r + 1) = r + 1 := by
    simp only [wrap32]
    rw [e31] at h
    rw [e31, e32]
    rw [Int.emod_eq_of_lt (by omega) (by omega)]
    omega
  show r < (genToken r).2
  simp only [genToken, hw]
  rw [if_neg (by omega)]
  omega

/-- Witness for C4 (amended) at counter state 0: the first call returns 1,
the second returns 2. -/
theorem genToken_strictly_increasing_witness :
    (genToken 0).2 < 2 ^ 31 - 1 ∧ (genToken 0).2 < (genToken ((genToken 0).1)).2 :=
  ⟨by decide, genToken_strictly_increasing 0 (by decide)⟩

/-- Counterexample for C5 as stated: on a group whose start time is set
(5) but whose stored peer start time is zero, a later `applyGroupTime`
call returns `false` yet mutates the stored peer-start anchor from 0 to
the caller's value 7, so the stored anchors do not stay unchanged. -/
theorem applyGroupTime_mutates_anchor_cex :
    applyGroupTime ⟨5, 0⟩ 3 7 = (false, ⟨5, 7⟩, 5, 7) ∧
    (applyGroupTime ⟨5, 0⟩ 3 7).2.1 ≠ (⟨5, 0⟩ : GroupTimeState) := by
  refine ⟨?_, ?_⟩ <;> decide

/-- C5 (amended): `applyGroupTime` installs both anchors from its
arguments and returns `true` when the stored start time is still zero; on
every later call it returns `false` and overwrites the caller's two
arguments with the stored anchors, leaving the stored anchors unchanged
whenever the stored peer start time is nonzero; when the stored peer
start time is zero the sanity fallback first repairs it from the caller's
peer argument. -/
theorem applyGroupTime_spec (g : GroupTimeState) (ws wp : Int) :
    (g.tsStartTime = 0 →
      applyGroupTime g ws wp = (true, ⟨ws, wp⟩, ws, wp)) ∧
    (g.tsStartTime ≠ 0 → g.tsRcvPeerStartTime ≠ 0 →
      applyGroupTime g ws wp = (false, g, g.tsStartTime, g.tsRcvPeerStartTime)) ∧
    (g.tsStartTime ≠ 0 → g.tsRcvPeerStartTime = 0 →
      applyGroupTime g ws wp = (false, ⟨g.tsStartTime, wp⟩, g.tsStartTime, wp)) := by
  refine ⟨fun h => ?_, fun h h2 => ?_, fun h h2 => ?_⟩
  · simp [applyGroupTime, h]
  · simp [applyGroupTime, h, h2]
  · simp [applyGroupTime, h, h2]

/-- Witness for C5 (amended): a first call, a later call with both anchors
set, and a later call hitting the zero-peer fallback. -/
theorem applyGroupTime_spec_witness :
    applyGroupTime ⟨0, 0⟩ 3 7 = (true, ⟨3, 7⟩, 3, 7) ∧
    applyGroupTime ⟨5, 6⟩ 3 7 = (false, ⟨5, 6⟩, 5, 6) ∧
    applyGroupTime ⟨5, 0⟩ 3 7 = (false, ⟨5, 7⟩, 5, 7) :=
  ⟨(applyGroupTime_spec ⟨0, 0⟩ 3 7).1 rfl,
   (applyGroupTime_spec ⟨5, 6⟩ 3 7).2.1 (by decide) (by decide),
   (applyGroupTime_spec ⟨5, 0⟩ 3 7).2.2 (by decide) rfl⟩

/-- C6: copy construction and copy assignment of a `BufferedMessage`
holding a payload buffer transfer the data pointer, size and control
header to the destination and null the source's data pointer, so the
buffer is owned by exactly one `BufferedMessage` afterwards. -/
theorem bufferedMessage_destructive_copy (src dst : BufferedMessage) (p : Nat)
    (h : src.data = some p) :
    (src.copyCtor.1.mc = src.mc ∧ src.copyCtor.1.data = some p ∧
      src.copyCtor.1.size = src.size ∧ src.copyCtor.2.data = none) ∧
    ((dst.assign src).1.mc = src.mc ∧ (dst.assign src).1.data = some p ∧
      (dst.assign src).1.size = src.size ∧ (dst.assign src).2.data = none) := by
  simp [BufferedMessage.copyCtor, BufferedMessage.assign, h]

/-- Witness for C6 at concrete messages: `bmSrc` owns pointer 7. -/
theorem bufferedMessage_destructive_copy_witness :
    (bmSrc.copyCtor.1.mc = bmSrc.mc ∧ bmSrc.copyCtor.1.data = some 7 ∧
      bmSrc.copyCtor.1.size = bmSrc.size ∧ bmSrc.copyCtor.2.data = none) ∧
    ((bmDst.assign bmSrc).1.mc = bmSrc.mc ∧ (bmDst.assign bmSrc).1.data = some 7 ∧
      (bmDst.assign bmSrc).1.size = bmSrc.size ∧ (bmDst.assign bmSrc).2.data = none) :=
  bufferedMessage_destructive_copy bmSrc bmDst 7 rfl

/-- C8: the `ConfigItem` constructor stores a blob whose length equals the
declared `size` and whose contents are the first `size` bytes of `val`. -/
theorem configItem_ctor_blob (o : Int) (val : Nat → Nat) (size : Nat) :
    (ConfigItem.ctor o val size).value.length = size ∧
    (ConfigItem.ctor o val size).value = (List.range size).map val := by
  constructor
  · simp [ConfigItem.ctor, stdCopy]
  · simp only [ConfigItem.ctor, stdCopy, List.length_replicate]
    apply List.map_congr_left
    intro i hi
    rw [List.mem_range] at hi
    simp [hi]

/-- C10: `ConfigItem::get<T>` fails and leaves the target untouched when
`sizeof(T)` exceeds the stored blob length; otherwise it succeeds and the
target receives exactly the first `sizeof(T)` stored bytes, so `get`
never reads past the stored blob. -/
theorem configItem_get_bounds (ci : ConfigItem) (sizeofT : Nat) (refr : List Nat) :
    (sizeofT > ci.value.length → ci.get sizeofT refr = (false, refr)) ∧
    (sizeofT ≤ ci.value.length →
      ci.get sizeofT refr = (true, ci.value.take sizeofT) ∧
      (ci.value.take sizeofT).length = sizeofT ∧
      ∀ i < sizeofT, (ci.value.take sizeofT).getD i 0 = ci.value.getD i 0) := by
  constructor
  · intro h
    simp [ConfigItem.get, h]
  · intro h
    refine ⟨by simp [ConfigItem.get, Nat.not_lt.mpr h], ?_, fun i hi => ?_⟩
    · simp [List.length_take]
      omega
    · simp [List.getD, List.getElem?_take, hi]

/-- Witness for C10: reading 2 bytes out of a 3-byte blob succeeds with
the blob's prefix; reading 4 bytes fails leaving the target unchanged. -/
theorem configItem_get_bounds_witness :
    ciEx.get 4 [9] = (false, [9]) ∧
    ciEx.get 2 [9] = (true, ciEx.value.take 2) :=
  ⟨(configItem_get_bounds ciEx 4 [9]).1 (by decide),
   ((configItem_get_bounds ciEx 2 [9]).2 (by decide)).1⟩

end SRTGroup
